import Mathlib

/-!
Verification of the sat-water-temps acquisition-and-processing pipeline.

This file embeds, as Lean definitions, the parts of the repository that the
checked properties talk about:

- the per-pixel quality (QC), cloud and water filters of the Worker lambda;
- the derived-status view `ecostress_requests_with_status` of migration
  0011_rename_scrape_to_submit.sql, together with an abstract transition
  system over the ledger writes of the pipeline;
- the polling state machine of the Step Function (WaitDynamic / CheckStatus /
  DoubleWait) from the terraform definition;
- the admin reprocess endpoint (src/routes/api/admin/reprocess/+server.ts);
- the check_wtoff endpoint
  (src/routes/api/feature/.../check_wtoff/[date]/+server.ts).

Theorems about these definitions follow after all definitions.
-/

namespace SatWaterTemps

/-! ### Worker pixel filtering -/

/-- Modelled from the spec: the Worker lambda (lambda_functions/processor.py)
is not part of the repository snapshot; its QC filter is modelled from the
current-state snippet quoted in docs/PIXEL_FILTERING_RESEARCH.md:
QC_FILL_VALUE = 65535. -/
def QC_FILL_VALUE : Nat := 65535

/-- Modelled from the spec: QC_MANDATORY_MASK = 0x03, the two mandatory QA
bits of the 16-bit ECOSTRESS QC word. -/
def QC_MANDATORY_MASK : Nat := 3

/-- Modelled from the spec: a pixel passes the QC filter iff its quality code
is not the fill sentinel and the two mandatory low bits decode to 0 or 1.
This is the keep-side of the qc_invalid predicate of the current-state
lambda: qc_invalid = (qc == QC_FILL_VALUE) | ((qc & QC_MANDATORY_MASK) > 1). -/
def qcKeep (q : Nat) : Bool :=
  decide (q ≠ QC_FILL_VALUE) && decide ((q &&& QC_MANDATORY_MASK) ≤ 1)

/-- The historical blacklist used by the pre-fix lambda and ECO_Converted.py,
quoted in docs/PIXEL_FILTERING_RESEARCH.md as INVALID_QC_VALUES. -/
def INVALID_QC_VALUES : List Nat := [15, 2501, 3525, 65535]

/-- Keep-side of the historical blacklist filter: keep iff the whole QC value
is not one of the enumerated bad values. -/
def blacklistKeep (q : Nat) : Bool := !(INVALID_QC_VALUES.contains q)

/-- One per-pixel record of the assembled scene table: water flag and cloud
flag as stored in the wt and cloud layers (integers), plus the quality code.
The temperature value itself is irrelevant to the filter structure and is
carried as an integer payload. -/
structure Pixel where
  lst : Int
  qc : Nat
  wt : Nat
  cloud : Nat
deriving DecidableEq, Repr

/-- Modelled from the spec: water_mask_flag = df["wt"].isin([1]).any() of the
Worker lambda — true iff at least one pixel of the scene is water-flagged. -/
def waterDetected (ps : List Pixel) : Bool := ps.any (fun p => p.wt == 1)

/-- Modelled from the spec: the water step of the Worker lambda, applied to
the already quality/cloud-filtered pixel set. When water is detected, pixels
with wt == 0 are dropped (np.where(df["wt"] == 0, np.nan, ...)); when no
pixel is water-flagged, the set is returned unchanged and the scene is
flagged water-off (the "_wtoff" suffix). Returns (kept pixels, wtoff). -/
def applyWaterFilter (ps : List Pixel) : List Pixel × Bool :=
  if waterDetected ps then (ps.filter (fun p => !(p.wt == 0)), false)
  else (ps, true)

/-! ### Request and job ledger, derived status view -/

/-- Status column of a processing_jobs row. -/
inductive JobStatus
  | started
  | success
  | failed
deriving DecidableEq, Repr

/-- The job_type column after migration 0011 (scrape renamed to submit). -/
inductive JobType
  | submit
  | process
deriving DecidableEq, Repr

/-- One processing_jobs row, restricted to the columns the view
ecostress_requests_with_status reads: task_id, job_type, status. -/
structure JobRow where
  taskId : Nat
  jobType : JobType
  status : JobStatus
deriving DecidableEq, Repr

/-- One ecostress_requests row after the remove-status migration, restricted
to the columns the reprocess endpoint and the view read: id, task_id,
trigger_type, scenes_count, created_at. There is no status field: the table
has no status column. -/
structure RequestRow where
  id : Nat
  taskId : Option Nat
  triggerType : String
  scenesCount : Option Nat
  createdAt : Nat
deriving DecidableEq, Repr

/-- The WHERE clause task_id = t AND job_type = submit. -/
def isSubmitFor (t : Nat) (j : JobRow) : Bool :=
  j.taskId == t && j.jobType == JobType.submit

/-- The WHERE clause task_id = t AND job_type = process AND
status IN (success, failed). -/
def isProcessedFor (t : Nat) (j : JobRow) : Bool :=
  j.taskId == t && j.jobType == JobType.process &&
    (j.status == JobStatus.success || j.status == JobStatus.failed)

/-- The WHERE clause task_id = t AND job_type = process AND status = failed. -/
def isFailedFor (t : Nat) (j : JobRow) : Bool :=
  j.taskId == t && j.jobType == JobType.process && j.status == JobStatus.failed

/-- SELECT status FROM processing_jobs WHERE task_id = t AND
job_type = submit LIMIT 1 — the first matching row, if any. -/
def submitStatus (jobs : List JobRow) (t : Nat) : Option JobStatus :=
  ((jobs.filter (isSubmitFor t)).head?).map JobRow.status

/-- SELECT COUNT(*) FROM processing_jobs WHERE task_id = t AND
job_type = process AND status IN (success, failed). -/
def processedCount (jobs : List JobRow) (t : Nat) : Nat :=
  jobs.countP (isProcessedFor t)

/-- SELECT COUNT(*) FROM processing_jobs WHERE task_id = t AND
job_type = process AND status = failed. -/
def failedCount (jobs : List JobRow) (t : Nat) : Nat :=
  jobs.countP (isFailedFor t)

/-- The user-visible status values. The value submitted appears in the
reprocess endpoint query text but is never produced by the view. -/
inductive DerivedStatus
  | pending
  | submitted
  | processing
  | completed
  | completedWithErrors
  | failed
deriving DecidableEq, Repr

/-- The CASE expression of the view ecostress_requests_with_status from
migration 0011_rename_scrape_to_submit.sql: pending while task_id is NULL;
failed when the submit job failed; processing while scenes_count is NULL;
completed when scenes_count = 0; once the count of success/failed process
jobs reaches scenes_count, completed_with_errors when at least one failed,
completed otherwise; processing below the count. -/
def derivedStatus (jobs : List JobRow) (r : RequestRow) : DerivedStatus :=
  match r.taskId with
  | none => .pending
  | some t =>
    if submitStatus jobs t = some JobStatus.failed then .failed
    else
      match r.scenesCount with
      | none => .processing
      | some 0 => .completed
      | some (n + 1) =>
        if n + 1 ≤ processedCount jobs t then
          if 0 < failedCount jobs t then .completedWithErrors else .completed
        else .processing

/-- Columns of the ecostress_requests table after the remove-status
migration (the recreated table), plus dispatched_at which the later view
migrations select. -/
def ecostressRequestsColumns : List String :=
  ["id", "task_id", "trigger_type", "triggered_by", "description",
   "start_date", "end_date", "scenes_count", "created_at", "updated_at",
   "error_message", "dispatched_at"]

/-- Column list of the INSERT INTO ecostress_requests statement of the admin
trigger endpoint (src/routes/api/admin/trigger/+server.ts, lines 34 to 41). -/
def triggerInsertColumns : List String :=
  ["trigger_type", "triggered_by", "description", "start_date", "end_date",
   "status", "created_at"]

/-- Columns assigned by the UPDATE ecostress_requests SET ... statement of
the admin trigger endpoint on Lambda invocation failure (lines 90 to 93). -/
def triggerFailureUpdateColumns : List String :=
  ["status", "error_message", "updated_at"]

/-! ### Ledger writes of the pipeline

One request together with the processing_jobs rows, and the writes the
pipeline performs against them: the initiator assigns the provider task id
and writes the submit JobRecord (started, then success or failed), Fan-out
populates scenes_count once after a successful submit, and each Worker
invocation writes a process JobRecord (started, then success or failed). -/

/-- A single ledger write of the pipeline, acting on one request row and the
job table. -/
inductive LedgerStep :
    RequestRow × List JobRow → RequestRow × List JobRow → Prop
  | assignTask (r : RequestRow) (jobs : List JobRow) (t : Nat)
      (h : r.taskId = none) :
      LedgerStep (r, jobs) ({ r with taskId := some t }, jobs)
  | insertSubmit (r : RequestRow) (jobs : List JobRow) (t : Nat)
      (ht : r.taskId = some t) :
      LedgerStep (r, jobs) (r, jobs ++ [⟨t, JobType.submit, JobStatus.started⟩])
  | finishSubmit (r : RequestRow) (pre post : List JobRow) (t : Nat)
      (s : JobStatus) (hs : s = JobStatus.success ∨ s = JobStatus.failed) :
      LedgerStep (r, pre ++ ⟨t, JobType.submit, JobStatus.started⟩ :: post)
        (r, pre ++ ⟨t, JobType.submit, s⟩ :: post)
  | setScenes (r : RequestRow) (jobs : List JobRow) (t n : Nat)
      (ht : r.taskId = some t) (hn : r.scenesCount = none)
      (hsub : submitStatus jobs t = some JobStatus.success) :
      LedgerStep (r, jobs) ({ r with scenesCount := some n }, jobs)
  | insertProc (r : RequestRow) (jobs : List JobRow) (t : Nat) :
      LedgerStep (r, jobs) (r, jobs ++ [⟨t, JobType.process, JobStatus.started⟩])
  | finishProc (r : RequestRow) (pre post : List JobRow) (t : Nat)
      (s : JobStatus) (hs : s = JobStatus.success ∨ s = JobStatus.failed) :
      LedgerStep (r, pre ++ ⟨t, JobType.process, JobStatus.started⟩ :: post)
        (r, pre ++ ⟨t, JobType.process, s⟩ :: post)

/-- Position of a derived status in the order
pending, submitted, processing, then the terminal statuses completed,
completed_with_errors and failed as one final tier. -/
def statusRank : DerivedStatus → Nat
  | .pending => 0
  | .submitted => 1
  | .processing => 2
  | .completed => 3
  | .completedWithErrors => 3
  | .failed => 3

/-- A concrete request with one scene, used to exercise the transition
system: task 7, scenes_count 1. -/
def cexRequest : RequestRow := ⟨1, some 7, "manual", some 1, 0⟩

/-- Initial row of the same request, before the task id was assigned. -/
def initRequest : RequestRow := ⟨1, none, "manual", none, 0⟩

/-- Job ledger before a late failure: submit succeeded, one scene succeeded,
a redelivered process job is started. -/
def cexJobsBefore : List JobRow :=
  [⟨7, JobType.submit, JobStatus.success⟩,
   ⟨7, JobType.process, JobStatus.success⟩,
   ⟨7, JobType.process, JobStatus.started⟩]

/-- Job ledger after the redelivered process job fails. -/
def cexJobsAfter : List JobRow :=
  [⟨7, JobType.submit, JobStatus.success⟩,
   ⟨7, JobType.process, JobStatus.success⟩,
   ⟨7, JobType.process, JobStatus.failed⟩]

/-! ### Polling state machine

From the terraform definition of the polling Step Function: WaitDynamic
suspends for wait_seconds, CheckStatus calls the status-checker lambda with
a Retry block, the IsDone choice routes done to ProcessManifest and error to
FailState, and every other status goes through DoubleWait back to
WaitDynamic. -/

/-- The DoubleWait Pass state:
wait_seconds becomes States.MathAdd(wait_seconds, wait_seconds). -/
def DoubleWait (w : Nat) : Nat := w + w

/-- Wait interval before the (n+1)-th CheckStatus, starting from the base
supplied to the execution as wait_seconds. -/
def waitSeconds (base : Nat) : Nat → Nat
  | 0 => base
  | n + 1 => DoubleWait (waitSeconds base n)

/-- The wait_seconds input the reprocess endpoint configures when starting
an execution (src/routes/api/admin/reprocess/+server.ts, sfnInput). -/
def reprocessWaitSeconds : Nat := 0

/-- A Step Function Retry block on a Task state. -/
structure RetryPolicy where
  intervalSeconds : Nat
  maxAttempts : Nat
  backoffRate : Nat
deriving DecidableEq, Repr

/-- The Retry block of the CheckStatus task: IntervalSeconds 60,
MaxAttempts 3, BackoffRate 2.0 on States.TaskFailed and States.Timeout. -/
def checkStatusRetry : RetryPolicy := ⟨60, 3, 2⟩

/-- Interval before the (k+1)-th retry of a task under a Retry policy: the
first retry waits IntervalSeconds and each later retry waits BackoffRate
times the previous interval. -/
def retryInterval (p : RetryPolicy) : Nat → Nat
  | 0 => p.intervalSeconds
  | k + 1 => p.backoffRate * retryInterval p k

/-! ### Admin reprocess endpoint -/

/-- The D1 state the reprocess endpoint touches: the request rows and the
processing_jobs rows the status view joins against. -/
structure Db where
  requests : List RequestRow
  jobs : List JobRow
deriving DecidableEq, Repr

/-- SELECT * FROM ecostress_requests WHERE id = ? — the first match. -/
def findRequest (db : Db) (reqId : Nat) : Option RequestRow :=
  (db.requests.filter (fun r => r.id == reqId)).head?

/-- The literal status list of the active-reprocess query of the endpoint:
status IN (submitted, processing, pending). -/
def activeStatuses : List DerivedStatus :=
  [DerivedStatus.submitted, DerivedStatus.processing, DerivedStatus.pending]

/-- The active-reprocess existence check: some row of the status view with
the same task id, trigger_type reprocess and an active status. -/
def hasActiveReprocess (db : Db) (t : Nat) : Bool :=
  db.requests.any (fun r =>
    r.taskId == some t && r.triggerType == "reprocess" &&
      activeStatuses.contains (derivedStatus db.jobs r))

/-- Outcome of one reprocess POST. -/
inductive ReprocessOutcome
  | notFound
  | noTaskId
  | conflict
  | accepted (row : RequestRow)
deriving DecidableEq, Repr

/-- The POST handler of src/routes/api/admin/reprocess/+server.ts, modelled
up to the row insert and the Step Function start: fetch the original
request by id, reject when absent (404) or without a task id (400), reject
with a conflict (409) when an active reprocess for the task exists,
otherwise insert the new reprocess row and start the Step Function.
Returns the outcome, the new database state, and whether the Step Function
execution was started. -/
def reprocessPOST (db : Db) (reqId : Nat) (now : Nat) (newId : Nat) :
    ReprocessOutcome × Db × Bool :=
  match findRequest db reqId with
  | none => (ReprocessOutcome.notFound, db, false)
  | some orig =>
    match orig.taskId with
    | none => (ReprocessOutcome.noTaskId, db, false)
    | some t =>
      if hasActiveReprocess db t then (ReprocessOutcome.conflict, db, false)
      else
        (ReprocessOutcome.accepted ⟨newId, some t, "reprocess", none, now⟩,
         { db with requests :=
             db.requests ++ [⟨newId, some t, "reprocess", none, now⟩] },
         true)

/-- A database whose only request was created at epoch time 0, arbitrarily
older than any retention window at the time of the call. -/
def staleDb : Db := { requests := [⟨1, some 7, "manual", some 1, 0⟩], jobs := [] }

/-- A database with an original request and a still-active (processing)
reprocess request for the same task 7. -/
def conflictDb : Db :=
  { requests := [⟨1, some 7, "manual", some 1, 0⟩,
                 ⟨2, some 7, "reprocess", none, 50⟩],
    jobs := [] }

/-! ### check_wtoff endpoint -/

/-- The wtoff column of one temperature_metadata row as D1 returns it: an
integer or NULL. -/
structure WtoffRow where
  wtoff : Option Int
deriving DecidableEq, Repr

/-- JavaScript Boolean() of the column value: null and 0 are falsy, every
other integer is truthy. -/
def jsTruthy : Option Int → Bool
  | none => false
  | some v => decide (v ≠ 0)

/-- Response of the endpoint: HTTP status, the wtoff JSON field when
present, the error JSON field when present. -/
structure WtoffResponse where
  status : Nat
  wtoff : Option Bool
  error : Option String
deriving DecidableEq, Repr

/-- GET handler of the check_wtoff endpoint
(src/routes/api/feature/.../check_wtoff/[date]/+server.ts): 500 when the
database binding is missing; otherwise the metadata row for
(feature_id, date) is looked up, a missing row or a thrown query both
produce HTTP 200 with wtoff = true, and a found row produces HTTP 200 with
the boolean value of its wtoff field. -/
def checkWtoffGET (dbAvailable : Bool) (q : Except Unit (Option WtoffRow)) :
    WtoffResponse :=
  if !dbAvailable then ⟨500, none, some "Database not available"⟩
  else
    match q with
    | Except.error _ => ⟨200, some true, none⟩
    | Except.ok none => ⟨200, some true, none⟩
    | Except.ok (some row) => ⟨200, some (jsTruthy row.wtoff), none⟩

end SatWaterTemps

namespace SatWaterTemps

/-! ### Theorems: C1 quality filter, C2 water filter -/

/-- Every element of a list is at most the foldr of max over it. -/
theorem le_foldr_max (L : List Nat) : ∀ x ∈ L, x ≤ L.foldr max 0 := by
  induction L with
  | nil => intro x hx; cases hx
  | cons a L ih =>
    intro x hx
    rcases List.mem_cons.mp hx with h | h
    · subst h; exact le_max_left _ _
    · exact le_trans (ih x h) (le_max_right _ _)

/-- The two mandatory bits are the value modulo 4. -/
theorem and_mask_eq_mod (q : Nat) : q &&& QC_MANDATORY_MASK = q % 4 := by
  have h := Nat.and_pow_two_sub_one_eq_mod q 2
  simpa [QC_MANDATORY_MASK] using h

/-- C1: the Worker quality filter keeps a pixel iff the code is not the fill
sentinel 65535 and its two mandatory low bits are 0 or 1; acceptance depends
only on the fill test and the masked low bits, no fixed finite blacklist of
whole values decides it, and it differs from the historical blacklist at
2501 (nominal, blacklist rejects) and 2 (cloud, blacklist keeps). -/
theorem qc_filter_is_bitmask :
    (∀ q : Nat, qcKeep q = true ↔
      q ≠ QC_FILL_VALUE ∧
        ((q &&& QC_MANDATORY_MASK) = 0 ∨ (q &&& QC_MANDATORY_MASK) = 1))
  ∧ (∀ q q' : Nat, (q = QC_FILL_VALUE ↔ q' = QC_FILL_VALUE) →
      q &&& QC_MANDATORY_MASK = q' &&& QC_MANDATORY_MASK →
      qcKeep q = qcKeep q')
  ∧ (∀ L : List Nat, ¬ (∀ q : Nat, qcKeep q = !(L.contains q)))
  ∧ (qcKeep 2501 = true ∧ blacklistKeep 2501 = false
      ∧ qcKeep 2 = false ∧ blacklistKeep 2 = true) := by
  refine ⟨?_, ?_, ?_, by decide⟩
  · intro q
    simp only [qcKeep, Bool.and_eq_true, decide_eq_true_eq]
    constructor
    · rintro ⟨h1, h2⟩; exact ⟨h1, by omega⟩
    · rintro ⟨h1, h2⟩; exact ⟨h1, by omega⟩
  · intro q q' hfill hmask
    simp only [qcKeep, hmask]
    have : (decide (q ≠ QC_FILL_VALUE)) = (decide (q' ≠ QC_FILL_VALUE)) := by
      simp only [decide_eq_decide]
      exact not_congr hfill
    rw [this]
  · intro L hL
    set M := L.foldr max 0 with hM
    have hq := hL (4 * M + 6)
    have hmem : ¬ (4 * M + 6) ∈ L := by
      intro hmem
      have := le_foldr_max L _ hmem
      omega
    have hcontains : L.contains (4 * M + 6) = false := by
      rw [List.contains_eq_any_beq]
      simp only [List.any_eq_false]
      intro x hx
      simp only [beq_iff_eq]
      intro hEq
      exact hmem (hEq ▸ hx)
    rw [hcontains] at hq
    have hkeep : qcKeep (4 * M + 6) = false := by
      simp only [qcKeep, Bool.and_eq_false_iff, decide_eq_false_iff_not]
      right
      rw [and_mask_eq_mod]
      omega
    rw [hkeep] at hq
    simp at hq

/-- Witness for the quality-filter theorem at concrete codes. -/
theorem qc_filter_is_bitmask_witness : qcKeep 6 = qcKeep 10 :=
  qc_filter_is_bitmask.2.1 6 10 (by decide) (by decide)

/-- C2: water filtering over the quality/cloud-filtered pixel set (with the
wt layer encoding 0 = land, 1 = water): when at least one pixel is
water-flagged the output keeps exactly the water-flagged pixels and every
non-water pixel is excluded; when no pixel is water-flagged the output is the
input unchanged and the water-off flag is set. -/
theorem water_filter_correct (ps : List Pixel)
    (hb : ∀ p ∈ ps, p.wt = 0 ∨ p.wt = 1) :
    (waterDetected ps = true →
        (applyWaterFilter ps).1 = ps.filter (fun p => p.wt == 1)
      ∧ (∀ p ∈ (applyWaterFilter ps).1, p.wt = 1))
  ∧ (waterDetected ps = false →
        (applyWaterFilter ps).1 = ps ∧ (applyWaterFilter ps).2 = true) := by
  constructor
  · intro hdet
    have hfilter : (applyWaterFilter ps).1 = ps.filter (fun p => !(p.wt == 0)) := by
      simp [applyWaterFilter, hdet]
    have heq : ps.filter (fun p => !(p.wt == 0)) = ps.filter (fun p => p.wt == 1) := by
      apply List.filter_congr
      intro p hp
      rcases hb p hp with h | h <;> simp [h]
    constructor
    · rw [hfilter, heq]
    · intro p hp
      rw [hfilter, heq] at hp
      have := List.of_mem_filter hp
      simpa using this
  · intro hdet
    constructor <;> simp [applyWaterFilter, hdet]

/-- Witness for the water-filter theorem on a concrete mixed scene. -/
theorem water_filter_correct_witness :
    (waterDetected [⟨300, 0, 1, 0⟩, ⟨280, 0, 0, 0⟩] = true →
        (applyWaterFilter [⟨300, 0, 1, 0⟩, ⟨280, 0, 0, 0⟩]).1 =
          List.filter (fun p => p.wt == 1) [⟨300, 0, 1, 0⟩, ⟨280, 0, 0, 0⟩]
      ∧ (∀ p ∈ (applyWaterFilter [⟨300, 0, 1, 0⟩, ⟨280, 0, 0, 0⟩]).1, p.wt = 1))
  ∧ (waterDetected [⟨300, 0, 1, 0⟩, ⟨280, 0, 0, 0⟩] = false →
        (applyWaterFilter [⟨300, 0, 1, 0⟩, ⟨280, 0, 0, 0⟩]).1 =
          [⟨300, 0, 1, 0⟩, ⟨280, 0, 0, 0⟩]
      ∧ (applyWaterFilter [⟨300, 0, 1, 0⟩, ⟨280, 0, 0, 0⟩]).2 = true) :=
  water_filter_correct [⟨300, 0, 1, 0⟩, ⟨280, 0, 0, 0⟩] (by decide)

/-! ### Theorems: C3 derived completion by count, C4 no stored status -/

/-- Reduction of the view for a request whose task id is assigned. -/
theorem derivedStatus_of_task (jobs : List JobRow) (r : RequestRow) (t : Nat)
    (ht : r.taskId = some t) :
    derivedStatus jobs r =
      (if submitStatus jobs t = some JobStatus.failed then DerivedStatus.failed
       else
         match r.scenesCount with
         | none => DerivedStatus.processing
         | some 0 => DerivedStatus.completed
         | some (n + 1) =>
           if n + 1 ≤ processedCount jobs t then
             if 0 < failedCount jobs t then DerivedStatus.completedWithErrors
             else DerivedStatus.completed
           else DerivedStatus.processing) := by
  unfold derivedStatus
  rw [ht]

/-- Reduction of the view once the submit job has not failed and a positive
scene count is recorded. -/
theorem derivedStatus_of_scenes (jobs : List JobRow) (r : RequestRow)
    (t m : Nat) (ht : r.taskId = some t)
    (hsub : submitStatus jobs t ≠ some JobStatus.failed)
    (hN : r.scenesCount = some (m + 1)) :
    derivedStatus jobs r =
      (if m + 1 ≤ processedCount jobs t then
         if 0 < failedCount jobs t then DerivedStatus.completedWithErrors
         else DerivedStatus.completed
       else DerivedStatus.processing) := by
  rw [derivedStatus_of_task jobs r t ht, if_neg hsub, hN]

/-- C3: for a request with a task id, a non-failed submit job and
scenes_count = N > 0, the view derives completed_with_errors iff the number
of success/failed process jobs for the task is at least N with at least one
failed, completed iff at least N with none failed, and processing while the
count is below N. -/
theorem completion_decided_by_count (jobs : List JobRow) (r : RequestRow)
    (t N : Nat) (ht : r.taskId = some t)
    (hsub : submitStatus jobs t ≠ some JobStatus.failed)
    (hN : r.scenesCount = some N) (hpos : 0 < N) :
    (derivedStatus jobs r = DerivedStatus.completedWithErrors ↔
       N ≤ processedCount jobs t ∧ 0 < failedCount jobs t)
  ∧ (derivedStatus jobs r = DerivedStatus.completed ↔
       N ≤ processedCount jobs t ∧ failedCount jobs t = 0)
  ∧ (processedCount jobs t < N → derivedStatus jobs r = DerivedStatus.processing) := by
  obtain ⟨m, rfl⟩ : ∃ m, N = m + 1 := ⟨N - 1, by omega⟩
  rw [derivedStatus_of_scenes jobs r t m ht hsub hN]
  by_cases h1 : m + 1 ≤ processedCount jobs t
  · rw [if_pos h1]
    by_cases h2 : 0 < failedCount jobs t
    · rw [if_pos h2]
      refine ⟨⟨fun _ => ⟨h1, h2⟩, fun _ => rfl⟩, ⟨fun h => ?_, fun h => ?_⟩, fun h => ?_⟩
      · cases h
      · omega
      · omega
    · rw [if_neg h2]
      refine ⟨⟨fun h => ?_, fun h => ?_⟩, ⟨fun _ => ⟨h1, by omega⟩, fun _ => rfl⟩, fun h => ?_⟩
      · cases h
      · omega
      · omega
  · rw [if_neg h1]
    refine ⟨⟨fun h => ?_, fun h => ?_⟩, ⟨fun h => ?_, fun h => ?_⟩, fun _ => rfl⟩
    · cases h
    · omega
    · cases h
    · omega

/-- Witness for the completion-by-count theorem on a concrete ledger. -/
theorem completion_decided_by_count_witness :
    (derivedStatus
        [⟨7, JobType.process, JobStatus.success⟩, ⟨7, JobType.process, JobStatus.failed⟩]
        ⟨1, some 7, "manual", some 2, 0⟩ = DerivedStatus.completedWithErrors ↔
       2 ≤ processedCount
         [⟨7, JobType.process, JobStatus.success⟩, ⟨7, JobType.process, JobStatus.failed⟩] 7
       ∧ 0 < failedCount
         [⟨7, JobType.process, JobStatus.success⟩, ⟨7, JobType.process, JobStatus.failed⟩] 7)
  ∧ (derivedStatus
        [⟨7, JobType.process, JobStatus.success⟩, ⟨7, JobType.process, JobStatus.failed⟩]
        ⟨1, some 7, "manual", some 2, 0⟩ = DerivedStatus.completed ↔
       2 ≤ processedCount
         [⟨7, JobType.process, JobStatus.success⟩, ⟨7, JobType.process, JobStatus.failed⟩] 7
       ∧ failedCount
         [⟨7, JobType.process, JobStatus.success⟩, ⟨7, JobType.process, JobStatus.failed⟩] 7 = 0)
  ∧ (processedCount
        [⟨7, JobType.process, JobStatus.success⟩, ⟨7, JobType.process, JobStatus.failed⟩] 7 < 2 →
      derivedStatus
        [⟨7, JobType.process, JobStatus.success⟩, ⟨7, JobType.process, JobStatus.failed⟩]
        ⟨1, some 7, "manual", some 2, 0⟩ = DerivedStatus.processing) :=
  completion_decided_by_count
    [⟨7, JobType.process, JobStatus.success⟩, ⟨7, JobType.process, JobStatus.failed⟩]
    ⟨1, some 7, "manual", some 2, 0⟩ 7 2 rfl (by decide) rfl (by decide)

/-- C4: the derived status is a pure function of the request rows task id
and scene count together with the job rows — it reads no stored status —
while the admin trigger endpoint still writes a status column value
(insert of pending, update to failed) that the post-migration
ecostress_requests table no longer has. -/
theorem no_stored_status_but_trigger_writes_one :
    ("status" ∈ triggerInsertColumns ∧ "status" ∈ triggerFailureUpdateColumns)
  ∧ "status" ∉ ecostressRequestsColumns
  ∧ (∀ (jobs : List JobRow) (r₁ r₂ : RequestRow),
      r₁.taskId = r₂.taskId → r₁.scenesCount = r₂.scenesCount →
      derivedStatus jobs r₁ = derivedStatus jobs r₂) := by
  refine ⟨by decide, by decide, ?_⟩
  intro jobs r₁ r₂ h1 h2
  unfold derivedStatus
  rw [h1, h2]

/-- Witness for the no-stored-status theorem at concrete rows. -/
theorem no_stored_status_but_trigger_writes_one_witness :
    derivedStatus [] ⟨1, none, "manual", none, 0⟩ =
      derivedStatus [] ⟨2, none, "reprocess", none, 5⟩ :=
  no_stored_status_but_trigger_writes_one.2.2 []
    ⟨1, none, "manual", none, 0⟩ ⟨2, none, "reprocess", none, 5⟩ rfl rfl

/-! ### Theorems: C5 monotonicity of the derived status -/

/-- Every derived status has rank at most 3. -/
theorem statusRank_le_three (s : DerivedStatus) : statusRank s ≤ 3 := by
  cases s <;> decide

/-- Once a task id is assigned the derived status has rank at least 2. -/
theorem two_le_statusRank_of_task (jobs : List JobRow) (r : RequestRow)
    (t : Nat) (ht : r.taskId = some t) :
    2 ≤ statusRank (derivedStatus jobs r) := by
  rw [derivedStatus_of_task jobs r t ht]
  split
  · decide
  · cases hS : r.scenesCount with
    | none => show 2 ≤ statusRank DerivedStatus.processing; decide
    | some n =>
      cases n with
      | zero => show 2 ≤ statusRank DerivedStatus.completed; decide
      | succ m =>
        show 2 ≤ statusRank (if m + 1 ≤ processedCount jobs t then
          (if 0 < failedCount jobs t then DerivedStatus.completedWithErrors
           else DerivedStatus.completed) else DerivedStatus.processing)
        split
        · split <;> decide
        · decide

/-- Appending a row keeps a failed submit status failed (the view reads the
first submit row). -/
theorem submitStatus_append_preserves_failed (jobs : List JobRow) (x : JobRow)
    (u : Nat) (h : submitStatus jobs u = some JobStatus.failed) :
    submitStatus (jobs ++ [x]) u = some JobStatus.failed := by
  unfold submitStatus at h ⊢
  rw [List.filter_append]
  cases hf : jobs.filter (isSubmitFor u) with
  | nil => rw [hf] at h; simp at h
  | cons a l => rw [hf] at h; simpa using h

/-- A process-type row is invisible to the submit-status lookup. -/
theorem submitStatus_process_mid (pre post : List JobRow) (t u : Nat)
    (x : JobStatus) :
    submitStatus (pre ++ ⟨t, JobType.process, x⟩ :: post) u =
      submitStatus (pre ++ post) u := by
  unfold submitStatus
  rw [List.filter_append, List.filter_append, List.filter_cons]
  have hmid : isSubmitFor u ⟨t, JobType.process, x⟩ = false := by
    simp [isSubmitFor]
  simp [hmid]

/-- A process-type row appended at the end is invisible to the submit-status
lookup. -/
theorem submitStatus_append_process (jobs : List JobRow) (t u : Nat)
    (x : JobStatus) :
    submitStatus (jobs ++ [⟨t, JobType.process, x⟩]) u =
      submitStatus jobs u := by
  unfold submitStatus
  rw [List.filter_append, List.filter_cons]
  have hmid : isSubmitFor u ⟨t, JobType.process, x⟩ = false := by
    simp [isSubmitFor]
  simp [hmid]

/-- Head-of-list characterization of the submit-status lookup. -/
theorem submitStatus_cons (a : JobRow) (l : List JobRow) (u : Nat) :
    submitStatus (a :: l) u =
      if isSubmitFor u a then some a.status else submitStatus l u := by
  unfold submitStatus
  rw [List.filter_cons]
  cases hv : isSubmitFor u a with
  | false => simp
  | true => simp

/-- Updating the status of a started submit row keeps a failed submit status
failed: the failed row seen by the lookup cannot be the started row. -/
theorem submitStatus_update_preserves_failed (pre post : List JobRow)
    (t u : Nat) (s : JobStatus)
    (h : submitStatus (pre ++ ⟨t, JobType.submit, JobStatus.started⟩ :: post) u
          = some JobStatus.failed) :
    submitStatus (pre ++ ⟨t, JobType.submit, s⟩ :: post) u
      = some JobStatus.failed := by
  induction pre with
  | nil =>
    rw [List.nil_append] at h ⊢
    rw [submitStatus_cons] at h ⊢
    have hmid : isSubmitFor u ⟨t, JobType.submit, s⟩ =
        isSubmitFor u ⟨t, JobType.submit, JobStatus.started⟩ := by
      simp [isSubmitFor]
    rw [hmid]
    cases hv : isSubmitFor u ⟨t, JobType.submit, JobStatus.started⟩ with
    | false => rw [hv] at h; simpa using h
    | true => rw [hv] at h; simp at h
  | cons a pre ih =>
    rw [List.cons_append] at h ⊢
    rw [submitStatus_cons] at h ⊢
    cases hv : isSubmitFor u a with
    | false =>
      rw [hv] at h
      simp only [Bool.false_eq_true, if_false] at h ⊢
      exact ih h
    | true =>
      rw [hv] at h
      simpa using h

/-- A submit-type row does not change the processed-jobs count. -/
theorem processedCount_append_submit (jobs : List JobRow) (t u : Nat)
    (s : JobStatus) :
    processedCount (jobs ++ [⟨t, JobType.submit, s⟩]) u =
      processedCount jobs u := by
  unfold processedCount
  rw [List.countP_append]
  simp [List.countP_cons, isProcessedFor]

/-- A started process row does not change the processed-jobs count. -/
theorem processedCount_append_started (jobs : List JobRow) (t u : Nat) :
    processedCount (jobs ++ [⟨t, JobType.process, JobStatus.started⟩]) u =
      processedCount jobs u := by
  unfold processedCount
  rw [List.countP_append]
  simp [List.countP_cons, isProcessedFor]

/-- Updating a submit row does not change the processed-jobs count. -/
theorem processedCount_mid_submit (pre post : List JobRow) (t u : Nat)
    (a b : JobStatus) :
    processedCount (pre ++ ⟨t, JobType.submit, a⟩ :: post) u =
      processedCount (pre ++ ⟨t, JobType.submit, b⟩ :: post) u := by
  unfold processedCount
  rw [List.countP_append, List.countP_append, List.countP_cons,
    List.countP_cons]
  simp [isProcessedFor]

/-- Finishing a started process row can only grow the processed-jobs count. -/
theorem processedCount_mid_started_le (pre post : List JobRow) (t u : Nat)
    (s : JobStatus) :
    processedCount (pre ++ ⟨t, JobType.process, JobStatus.started⟩ :: post) u ≤
      processedCount (pre ++ ⟨t, JobType.process, s⟩ :: post) u := by
  unfold processedCount
  rw [List.countP_append, List.countP_append, List.countP_cons,
    List.countP_cons]
  have h1 : isProcessedFor u ⟨t, JobType.process, JobStatus.started⟩ = false := by
    simp [isProcessedFor]
  rw [h1]
  cases h2 : isProcessedFor u ⟨t, JobType.process, s⟩ <;> simp

/-- If the failed-submit test survives a job-table change and the
processed-jobs count does not shrink, the rank of the derived status does
not shrink either. -/
theorem statusRank_mono_of_jobs (jobs₁ jobs₂ : List JobRow) (r : RequestRow)
    (hsub : ∀ u, submitStatus jobs₁ u = some JobStatus.failed →
        submitStatus jobs₂ u = some JobStatus.failed)
    (hproc : ∀ u, processedCount jobs₁ u ≤ processedCount jobs₂ u) :
    statusRank (derivedStatus jobs₁ r) ≤ statusRank (derivedStatus jobs₂ r) := by
  cases hT : r.taskId with
  | none =>
    have h1 : derivedStatus jobs₁ r = DerivedStatus.pending := by
      unfold derivedStatus; rw [hT]
    rw [h1]; exact Nat.zero_le _
  | some t =>
    rw [derivedStatus_of_task jobs₁ r t hT, derivedStatus_of_task jobs₂ r t hT]
    by_cases h1 : submitStatus jobs₁ t = some JobStatus.failed
    · rw [if_pos h1, if_pos (hsub t h1)]
    · rw [if_neg h1]
      by_cases h2 : submitStatus jobs₂ t = some JobStatus.failed
      · rw [if_pos h2]
        exact le_trans (statusRank_le_three _) (by decide)
      · rw [if_neg h2]
        cases hS : r.scenesCount with
        | none => exact le_refl _
        | some n =>
          cases n with
          | zero => exact le_refl _
          | succ m =>
            show statusRank (if m + 1 ≤ processedCount jobs₁ t then
                (if 0 < failedCount jobs₁ t then DerivedStatus.completedWithErrors
                 else DerivedStatus.completed) else DerivedStatus.processing) ≤
              statusRank (if m + 1 ≤ processedCount jobs₂ t then
                (if 0 < failedCount jobs₂ t then DerivedStatus.completedWithErrors
                 else DerivedStatus.completed) else DerivedStatus.processing)
            by_cases h3 : m + 1 ≤ processedCount jobs₁ t
            · rw [if_pos h3, if_pos (le_trans h3 (hproc t))]
              have e1 : statusRank (if 0 < failedCount jobs₁ t then
                  DerivedStatus.completedWithErrors else DerivedStatus.completed) = 3 := by
                split <;> rfl
              have e2 : statusRank (if 0 < failedCount jobs₂ t then
                  DerivedStatus.completedWithErrors else DerivedStatus.completed) = 3 := by
                split <;> rfl
              rw [e1, e2]
            · rw [if_neg h3]
              by_cases h4 : m + 1 ≤ processedCount jobs₂ t
              · rw [if_pos h4]
                have e2 : statusRank (if 0 < failedCount jobs₂ t then
                    DerivedStatus.completedWithErrors else DerivedStatus.completed) = 3 := by
                  split <;> rfl
                rw [e2]; decide
              · rw [if_neg h4]

/-- C5 (amended): along every ledger write of the pipeline, the derived
status never moves backward in the order pending, submitted, processing,
terminal tier (completed, completed_with_errors, failed); within the
terminal tier, completed may still change to completed_with_errors when a
late process job fails. -/
theorem derived_status_rank_monotone (s₁ s₂ : RequestRow × List JobRow)
    (h : LedgerStep s₁ s₂) :
    statusRank (derivedStatus s₁.2 s₁.1) ≤ statusRank (derivedStatus s₂.2 s₂.1) := by
  cases h with
  | assignTask r jobs t h =>
    dsimp only
    have h1 : derivedStatus jobs r = DerivedStatus.pending := by
      unfold derivedStatus; rw [h]
    rw [h1]; exact Nat.zero_le _
  | insertSubmit r jobs t ht =>
    dsimp only
    apply statusRank_mono_of_jobs
    · intro u hf; exact submitStatus_append_preserves_failed jobs _ u hf
    · intro u; exact le_of_eq (processedCount_append_submit jobs t u _).symm
  | finishSubmit r pre post t s hs =>
    dsimp only
    apply statusRank_mono_of_jobs
    · intro u hf; exact submitStatus_update_preserves_failed pre post t u s hf
    · intro u; exact le_of_eq (processedCount_mid_submit pre post t u _ _)
  | setScenes r jobs t n ht hn hsub =>
    dsimp only
    have h1 : derivedStatus jobs r = DerivedStatus.processing := by
      rw [derivedStatus_of_task jobs r t ht, if_neg (by simp [hsub]), hn]
    rw [h1]
    exact two_le_statusRank_of_task jobs _ t ht
  | insertProc r jobs t =>
    dsimp only
    apply statusRank_mono_of_jobs
    · intro u hf; exact submitStatus_append_preserves_failed jobs _ u hf
    · intro u; exact le_of_eq (processedCount_append_started jobs t u).symm
  | finishProc r pre post t s hs =>
    dsimp only
    apply statusRank_mono_of_jobs
    · intro u hf
      rw [submitStatus_process_mid] at hf
      rw [submitStatus_process_mid]
      exact hf
    · intro u; exact processedCount_mid_started_le pre post t u s

/-- Witness for the rank-monotonicity theorem on a concrete write. -/
theorem derived_status_rank_monotone_witness :
    statusRank (derivedStatus [] ⟨1, none, "manual", none, 0⟩) ≤
      statusRank (derivedStatus []
        ({ (⟨1, none, "manual", none, 0⟩ : RequestRow) with taskId := some 7 })) :=
  derived_status_rank_monotone (⟨1, none, "manual", none, 0⟩, [])
    ({ (⟨1, none, "manual", none, 0⟩ : RequestRow) with taskId := some 7 }, [])
    (LedgerStep.assignTask ⟨1, none, "manual", none, 0⟩ [] 7 rfl)

/-- C5 is false as stated: a reachable sequence of ledger writes reaches the
terminal status completed and then a single further reachable write (a
redelivered scene job failing) moves the request out of completed to
completed_with_errors. -/
theorem derived_status_leaves_completed :
    Relation.ReflTransGen LedgerStep (initRequest, ([] : List JobRow))
      (cexRequest, cexJobsBefore)
  ∧ LedgerStep (cexRequest, cexJobsBefore) (cexRequest, cexJobsAfter)
  ∧ derivedStatus cexJobsBefore cexRequest = DerivedStatus.completed
  ∧ derivedStatus cexJobsAfter cexRequest = DerivedStatus.completedWithErrors := by
  refine ⟨?_, ?_, by decide, by decide⟩
  · apply Relation.ReflTransGen.head
      (LedgerStep.assignTask initRequest [] 7 rfl)
    apply Relation.ReflTransGen.head
      (LedgerStep.insertSubmit _ [] 7 rfl)
    apply Relation.ReflTransGen.head
      (LedgerStep.finishSubmit _ [] [] 7 JobStatus.success (Or.inl rfl))
    apply Relation.ReflTransGen.head
      (LedgerStep.setScenes _ [⟨7, JobType.submit, JobStatus.success⟩] 7 1 rfl rfl
        (by decide))
    apply Relation.ReflTransGen.head
      (LedgerStep.insertProc _ [⟨7, JobType.submit, JobStatus.success⟩] 7)
    apply Relation.ReflTransGen.head
      (LedgerStep.finishProc _ [⟨7, JobType.submit, JobStatus.success⟩] [] 7
        JobStatus.success (Or.inl rfl))
    apply Relation.ReflTransGen.head
      (LedgerStep.insertProc _
        [⟨7, JobType.submit, JobStatus.success⟩,
         ⟨7, JobType.process, JobStatus.success⟩] 7)
    exact Relation.ReflTransGen.refl
  · exact LedgerStep.finishProc cexRequest
      [⟨7, JobType.submit, JobStatus.success⟩,
       ⟨7, JobType.process, JobStatus.success⟩] [] 7 JobStatus.failed (Or.inr rfl)

/-! ### Theorems: C6 poll backoff, C7 CheckStatus retry policy -/

/-- C6 is false as stated: the reprocess endpoint configures the base wait
wait_seconds = 0, and from that configured base the doubled sequence is
constantly 0 — not strictly increasing. -/
theorem backoff_constant_from_reprocess_base :
    waitSeconds reprocessWaitSeconds 1 = waitSeconds reprocessWaitSeconds 0
  ∧ ¬ waitSeconds reprocessWaitSeconds 0 < waitSeconds reprocessWaitSeconds 1 := by
  decide

/-- C6 (amended): each non-terminal poll iteration exactly doubles the
wait, the wait before the (n+1)-th check is 2 to the n times the base, and
the wait sequence is strictly increasing whenever the configured base is
positive (30, 60, 120, ...); the reprocess path configures base 0, for
which the sequence is constant. -/
theorem backoff_doubles (base n : Nat) :
    waitSeconds base (n + 1) = 2 * waitSeconds base n
  ∧ waitSeconds base n = 2 ^ n * base
  ∧ (0 < base → waitSeconds base n < waitSeconds base (n + 1)) := by
  have hpow : ∀ m, waitSeconds base m = 2 ^ m * base := by
    intro m
    induction m with
    | zero => simp [waitSeconds]
    | succ k ih =>
      show DoubleWait (waitSeconds base k) = 2 ^ (k + 1) * base
      rw [DoubleWait, ih]
      ring
  refine ⟨?_, hpow n, ?_⟩
  · show DoubleWait (waitSeconds base n) = 2 * waitSeconds base n
    rw [DoubleWait]
    ring
  · intro hb
    rw [hpow n, hpow (n + 1)]
    have h1 : (0 : Nat) < 2 ^ n * base := by positivity
    calc 2 ^ n * base < 2 ^ n * base + 2 ^ n * base := by omega
    _ = 2 ^ (n + 1) * base := by ring

/-- Witness for the backoff theorem at the scheduled base of 30 seconds. -/
theorem backoff_doubles_witness : waitSeconds 30 1 < waitSeconds 30 2 :=
  (backoff_doubles 30 1).2.2 (by decide)

/-- C7 is false as stated: with BackoffRate 2.0 the interval between
CheckStatus retries is not constant — it is 60 before the first retry and
120 before the second. -/
theorem checkstatus_retry_interval_grows :
    retryInterval checkStatusRetry 1 ≠ retryInterval checkStatusRetry 0
  ∧ retryInterval checkStatusRetry 0 = 60
  ∧ retryInterval checkStatusRetry 1 = 120
  ∧ retryInterval checkStatusRetry 2 = 240 := by
  decide

/-- C7 (amended): CheckStatus is retried a bounded number of times
(MaxAttempts 3), but at geometrically growing intervals: the wait before
the (k+1)-th retry is 60 times 2 to the k seconds, each retry interval
doubling the previous one. -/
theorem checkstatus_retry_policy (k : Nat) :
    checkStatusRetry.maxAttempts = 3
  ∧ retryInterval checkStatusRetry k = 60 * 2 ^ k
  ∧ retryInterval checkStatusRetry (k + 1) =
      2 * retryInterval checkStatusRetry k := by
  refine ⟨rfl, ?_, rfl⟩
  induction k with
  | zero => rfl
  | succ m ih =>
    show checkStatusRetry.backoffRate * retryInterval checkStatusRetry m =
      60 * 2 ^ (m + 1)
    rw [ih]
    show 2 * (60 * 2 ^ m) = 60 * 2 ^ (m + 1)
    ring

/-! ### Theorems: C8 reprocess conflict guard, C9 missing staleness check -/

/-- Reduction of the reprocess handler once the original request and its
task id are known. -/
theorem reprocessPOST_eq (db : Db) (reqId now newId t : Nat)
    (orig : RequestRow) (horig : findRequest db reqId = some orig)
    (ht : orig.taskId = some t) :
    reprocessPOST db reqId now newId =
      if hasActiveReprocess db t then (ReprocessOutcome.conflict, db, false)
      else
        (ReprocessOutcome.accepted ⟨newId, some t, "reprocess", none, now⟩,
         { db with requests :=
             db.requests ++ [⟨newId, some t, "reprocess", none, now⟩] },
         true) := by
  unfold reprocessPOST
  simp only [horig]
  rw [ht]

/-- C8: when an active (pending, submitted or processing) reprocess request
for the task already exists, the reprocess POST returns a conflict and
leaves the database unchanged with no Step Function started; when none
exists, it is accepted and exactly the new reprocess row is inserted. -/
theorem reprocess_guard (db : Db) (reqId now newId t : Nat)
    (orig : RequestRow) (horig : findRequest db reqId = some orig)
    (ht : orig.taskId = some t) :
    (hasActiveReprocess db t = true →
       reprocessPOST db reqId now newId =
         (ReprocessOutcome.conflict, db, false))
  ∧ (hasActiveReprocess db t = false →
       reprocessPOST db reqId now newId =
         (ReprocessOutcome.accepted ⟨newId, some t, "reprocess", none, now⟩,
          { db with requests :=
              db.requests ++ [⟨newId, some t, "reprocess", none, now⟩] },
          true)) := by
  rw [reprocessPOST_eq db reqId now newId t orig horig ht]
  constructor
  · intro ha; rw [if_pos ha]
  · intro ha; rw [if_neg (by simp [ha])]

/-- Witness for the reprocess guard theorem: the conflict branch on a
database holding an active reprocess for task 7. -/
theorem reprocess_guard_witness :
    reprocessPOST conflictDb 1 100 3 =
      (ReprocessOutcome.conflict, conflictDb, false) :=
  (reprocess_guard conflictDb 1 100 3 7 ⟨1, some 7, "manual", some 1, 0⟩
    rfl rfl).1 (by decide)

/-- C9 is false as stated: the endpoint performs no age check. With the
original request created at epoch time 0 and the call arriving arbitrarily
later, the reprocess request is accepted, a row is inserted and the Step
Function is started — it is not rejected and it does have side effects. -/
theorem reprocess_accepts_stale :
    (reprocessPOST staleDb 1 1000000000000 2).1 =
      ReprocessOutcome.accepted ⟨2, some 7, "reprocess", none, 1000000000000⟩
  ∧ (reprocessPOST staleDb 1 1000000000000 2).2.1 ≠ staleDb
  ∧ (reprocessPOST staleDb 1 1000000000000 2).2.2 = true := by
  decide

/-- C9 (amended): the reprocess endpoint has no staleness check — any
reprocess request whose original row exists with a task id and which has no
active duplicate is accepted, regardless of the original createdAt age and
of the current time. -/
theorem reprocess_ignores_age (db : Db) (reqId now newId t : Nat)
    (orig : RequestRow) (horig : findRequest db reqId = some orig)
    (ht : orig.taskId = some t)
    (ha : hasActiveReprocess db t = false) :
    (reprocessPOST db reqId now newId).1 =
      ReprocessOutcome.accepted ⟨newId, some t, "reprocess", none, now⟩ := by
  rw [reprocessPOST_eq db reqId now newId t orig horig ht,
    if_neg (by simp [ha])]

/-- Witness for the no-staleness theorem on the stale database. -/
theorem reprocess_ignores_age_witness :
    (reprocessPOST staleDb 1 999 2).1 =
      ReprocessOutcome.accepted ⟨2, some 7, "reprocess", none, 999⟩ :=
  reprocess_ignores_age staleDb 1 999 2 7 ⟨1, some 7, "manual", some 1, 0⟩
    rfl rfl (by decide)

/-! ### Theorems: C10 check_wtoff resilience -/

/-- C10: with the database binding present, a found metadata row yields HTTP
200 with the boolean value of its wtoff field, and a missing row or a
thrown query both yield HTTP 200 with wtoff = true — missing data is never
an error and never wtoff = false. -/
theorem check_wtoff_resilient (q : Except Unit (Option WtoffRow)) :
    (∀ row, q = Except.ok (some row) →
       checkWtoffGET true q = ⟨200, some (jsTruthy row.wtoff), none⟩)
  ∧ (q = Except.ok none → checkWtoffGET true q = ⟨200, some true, none⟩)
  ∧ (∀ e, q = Except.error e →
       checkWtoffGET true q = ⟨200, some true, none⟩) := by
  refine ⟨?_, ?_, ?_⟩
  · intro row hq; subst hq; rfl
  · intro hq; subst hq; rfl
  · intro e hq; subst hq; rfl

/-- Witness for the check_wtoff theorem on a concrete row with wtoff = 1. -/
theorem check_wtoff_resilient_witness :
    checkWtoffGET true (Except.ok (some ⟨some 1⟩)) =
      ⟨200, some (jsTruthy (some 1)), none⟩ :=
  (check_wtoff_resilient (Except.ok (some ⟨some 1⟩))).1 ⟨some 1⟩ rfl

end SatWaterTemps
